import Mathlib

/-!
Shallow embedding of `respond/collector.go` from monitormap/micro-daemon.

The collector owns one UDP socket, periodically multicasts a request,
receives compressed responses on a bounded queue, decodes them and
dispatches them to an external node registry and an optional sink
(time-series database).  External collaborators (the registry `Update`,
the database client, the OS socket layer, the deflate+JSON decoder) are
modelled as function parameters; the collector's own control flow is
translated directly from the Go source, with side effects reified as
explicit effect traces.
-/

namespace Respond

/-- A UDP address (`net.UDPAddr` is opaque here: only identity matters). -/
structure UDPAddr where
  host : String
  port : Nat
deriving DecidableEq

/-- One optional section of a decoded payload; each section of
`data.ResponseData` carries a `NodeID` string field. -/
structure NodeSection where
  nodeID : String
deriving DecidableEq

/-- `data.ResponseData`: three independently optional sections
(`NodeInfo`, `Neighbours`, `Statistics`), each a nullable pointer in Go,
modelled as `Option`. -/
structure ResponseData where
  nodeInfo : Option NodeSection
  neighbours : Option NodeSection
  statistics : Option NodeSection
deriving DecidableEq

/-- The merged per-node state returned by `nodes.Update`; the collector
only inspects whether `node.Statistics` is nil, so the rest is opaque. -/
structure Node where
  statistics : Option Unit
deriving DecidableEq

/-- A raw received datagram (`Response` in the Go source): source address
plus a private copy of the read bytes. -/
structure Response where
  address : UDPAddr
  raw : List Nat
deriving DecidableEq

/-- NodeID search of `saveResponse` (collector.go lines 137-146):

    var nodeID string
    if val := res.NodeInfo; val != nil { nodeID = val.NodeID }
    else if val := res.Neighbours; val != nil { nodeID = val.NodeID }
    else if val := res.Statistics; val != nil { nodeID = val.NodeID }

When no section is present the Go zero value `""` remains. -/
def extractNodeID (res : ResponseData) : String :=
  match res.nodeInfo with
  | some val => val.nodeID
  | none =>
    match res.neighbours with
    | some val => val.nodeID
    | none =>
      match res.statistics with
      | some val => val.nodeID
      | none => ""

/-- Observable effects of the parse/save pipeline, in program order. -/
inductive Effect where
  | logDecodeError (address : UDPAddr) (raw : List Nat) (errMsg : String)
  | logInvalidNodeID (nodeID : String) (address : UDPAddr)
  | registryUpdate (nodeID : String) (res : ResponseData)
  | sinkAdd (nodeID : String) (node : Node)
deriving DecidableEq

/-- `saveResponse` (collector.go lines 136-161): extract the NodeID,
reject it unless its `len` is exactly 12 (Go `len` counts bytes, hence
`utf8ByteSize`), otherwise call `nodes.Update` and, when a database is
configured and the merged node has statistics, `db.Add`.
`db : Option Unit` models the nullable `coll.db` pointer and
`update` models the external registry. -/
def saveResponse (db : Option Unit) (update : String → ResponseData → Node)
    (addr : UDPAddr) (res : ResponseData) : List Effect :=
  let nodeID := extractNodeID res
  if nodeID.utf8ByteSize ≠ 12 then
    [Effect.logInvalidNodeID nodeID addr]
  else
    let node := update nodeID res
    Effect.registryUpdate nodeID res ::
      (if db.isSome && node.statistics.isSome then
        [Effect.sinkAdd nodeID node]
      else [])

/-- Number of `registryUpdate` effects in a trace. -/
def updateCount (tr : List Effect) : Nat :=
  (tr.filter fun e =>
    match e with
    | Effect.registryUpdate _ _ => true
    | _ => false).length

/-- Number of `sinkAdd` effects in a trace. -/
def sinkAddCount (tr : List Effect) : Nat :=
  (tr.filter fun e =>
    match e with
    | Effect.sinkAdd _ _ => true
    | _ => false).length

/-- One step of the parser loop (collector.go lines 115-123): decode the
datagram (`obj.parse()`, i.e. deflate + JSON, modelled by the external
`decode` function); on error log the source address and raw bytes, else
run `saveResponse`. -/
def parserStep (decode : List Nat → Except String ResponseData)
    (db : Option Unit) (update : String → ResponseData → Node)
    (obj : Response) : List Effect :=
  match decode obj.raw with
  | Except.error e => [Effect.logDecodeError obj.address obj.raw e]
  | Except.ok d => saveResponse db update obj.address d

/-- The parser goroutine `for obj := range coll.queue`: processes the
queued responses in FIFO order until the queue is closed and drained. -/
def parserRun (decode : List Nat → Except String ResponseData)
    (db : Option Unit) (update : String → ResponseData → Node) :
    List Response → List Effect
  | [] => []
  | obj :: rest =>
      parserStep decode db update obj ++ parserRun decode db update rest

/-- The fixed outbound request payload of `SendPacket`. -/
def requestPayload : String := "GET nodeinfo statistics neighbours"

/-- Observable effects of one `SendPacket` call. -/
inductive SendEffect where
  | writeToUDP (addr : UDPAddr) (payload : String)
  | logWriteFailed (errMsg : String)
deriving DecidableEq

/-- Result of a `SendPacket` call: `log.Panic` on address-resolution
failure aborts the process (no effects happen), otherwise the call
completes with its effect trace. -/
inductive SendResult where
  | panicked (errMsg : String)
  | completed (trace : List SendEffect)
deriving DecidableEq

/-- `SendPacket` (collector.go lines 89-98): resolve the textual address
(`log.Panic` on failure), then issue exactly one `WriteToUDP` with the
fixed literal payload; a write error is only logged. `resolve` and
`write` model the OS networking layer. -/
def SendPacket (resolve : String → Except String UDPAddr)
    (write : UDPAddr → String → Except String Unit)
    (address : String) : SendResult :=
  match resolve address with
  | Except.error e => SendResult.panicked e
  | Except.ok addr =>
    match write addr requestPayload with
    | Except.error e =>
        SendResult.completed
          [SendEffect.writeToUDP addr requestPayload, SendEffect.logWriteFailed e]
    | Except.ok _ =>
        SendResult.completed [SendEffect.writeToUDP addr requestPayload]

/-- Number of UDP write attempts recorded in a `SendPacket` result
(zero when the call panicked before reaching `WriteToUDP`). -/
def sendWriteCount : SendResult → Nat
  | SendResult.panicked _ => 0
  | SendResult.completed tr =>
      (tr.filter fun e =>
        match e with
        | SendEffect.writeToUDP _ _ => true
        | _ => false).length

/-- The payloads of the UDP write attempts of a `SendPacket` result. -/
def sendPayloads : SendResult → List String
  | SendResult.panicked _ => []
  | SendResult.completed tr =>
      tr.filterMap fun e =>
        match e with
        | SendEffect.writeToUDP _ p => some p
        | _ => none

/-- An event seen by a periodic `select` loop: either the stop channel
is closed or the ticker fires. -/
inductive TickEvent where
  | stop
  | tick
deriving DecidableEq

/-- The `sender` loop (collector.go lines 101-113): on each ticker tick
perform one `sendOnce`, stop when the stop channel closes.  `send n` is
the result of the n-th periodic send (the environment decides whether
each resolve/write succeeds); the loop itself never inspects it. -/
def sender (send : Nat → SendResult) (n : Nat) :
    List TickEvent → List SendResult
  | [] => []
  | TickEvent.stop :: _ => []
  | TickEvent.tick :: rest => send n :: sender send (n + 1) rest

/-- Whether a string contains a colon byte (Go
`strings.IndexByte(host, ':') >= 0`). -/
def containsColon (s : String) : Bool :=
  s.data.any fun c => c = ':'

/-- `net.JoinHostPort`: hosts containing a colon (IPv6 literals, also
after the `%zone` suffix is appended) are bracketed. -/
def joinHostPort (host port : String) : String :=
  if containsColon host then "[" ++ host ++ "]:" ++ port
  else host ++ ":" ++ port

/-- The `Collector` struct fields that the modelled control flow reads:
the nullable database pointer, the precomputed multicast address string,
the queue capacity passed to `make(chan *Response, 400)`, and the send
interval (`time.Duration`, zero until `Start`). -/
structure Collector where
  db : Option Unit
  multicastAddr : String
  queueCapacity : Nat
  interval : Int
deriving DecidableEq

/-- The goroutines `NewCollector` may spawn. -/
inductive SpawnedTask where
  | receiverTask
  | parserTask
  | globalStatsTask
deriving DecidableEq

/-- Result of `NewCollector`: `log.Panic` during construction, or the
built collector plus the list of goroutines spawned, in spawn order. -/
inductive NewCollectorResult where
  | panicked (errMsg : String)
  | created (coll : Collector) (spawned : List SpawnedTask)
deriving DecidableEq

/-- `NewCollector` (collector.go lines 28-59): resolve and bind the
local listen address `"[::]:0"` (`log.Panic` on either failure), build
the multicast address string by `net.JoinHostPort(multiCastGroup+"%"+iface,
port)` — no resolution of it happens here — create the queue with
capacity 400, spawn `receiver` and `parser`, and spawn
`globalStatsWorker` only when `db != nil`.  `resolve` and `listen` model
the OS networking layer; `multiCastGroup` and `port` are package
constants defined outside this file. -/
def NewCollector (resolve : String → Except String UDPAddr)
    (listen : UDPAddr → Except String Unit)
    (db : Option Unit) (multiCastGroup port iface : String) :
    NewCollectorResult :=
  match resolve "[::]:0" with
  | Except.error e => NewCollectorResult.panicked e
  | Except.ok addr =>
    match listen addr with
    | Except.error e => NewCollectorResult.panicked e
    | Except.ok _ =>
      let coll : Collector :=
        { db := db
          multicastAddr := joinHostPort (multiCastGroup ++ "%" ++ iface) port
          queueCapacity := 400
          interval := 0 }
      NewCollectorResult.created coll
        ([SpawnedTask.receiverTask, SpawnedTask.parserTask] ++
          (if db.isSome then [SpawnedTask.globalStatsTask] else []))

/-- Result of a `Start` call: panic, or the updated collector; a
successful `Start` spawns exactly one goroutine running `sendOnce`
followed by the periodic `sender` loop. -/
inductive StartResult where
  | panicked (msg : String)
  | started (coll : Collector)
deriving DecidableEq

/-- `Start` (collector.go lines 62-75): panic if already started
(`coll.interval != 0`), panic if `interval <= 0`, else record the
interval and spawn the send goroutine. -/
def Start (coll : Collector) (interval : Int) : StartResult :=
  if coll.interval ≠ 0 then StartResult.panicked "already started"
  else if interval ≤ 0 then StartResult.panicked "invalid collector interval"
  else StartResult.started { coll with interval := interval }

/-- Number of send goroutines spawned by a `Start` call (sends happen
only inside that goroutine, so zero spawns means zero sends). -/
def startSpawnCount : StartResult → Nat
  | StartResult.panicked _ => 0
  | StartResult.started _ => 1

/-- Runtime channel/socket state of a running collector, for the
shutdown model: the `stop` channel, the socket, and the bounded response
queue with its buffered contents. -/
structure CollectorRun where
  stopClosed : Bool
  socketClosed : Bool
  queueClosed : Bool
  queueBuffer : List Response
deriving DecidableEq

/-- The three shutdown actions of `Close`. -/
inductive CloseAction where
  | closeStop
  | closeSocket
  | closeQueue
deriving DecidableEq

/-- `Close` (collector.go lines 78-82): `close(coll.stop)`, then
`coll.connection.Close()`, then `close(coll.queue)`, in that order; the
already-buffered queue entries are untouched. -/
def Close (st : CollectorRun) : CollectorRun × List CloseAction :=
  ({ st with stopClosed := true, socketClosed := true, queueClosed := true },
   [CloseAction.closeStop, CloseAction.closeSocket, CloseAction.closeQueue])

/-- Pushing onto the response queue (the receiver's `coll.queue <- obj`):
a send on a closed Go channel panics, modelled as `none`; otherwise the
entry is appended FIFO. -/
def queuePush (st : CollectorRun) (r : Response) : Option CollectorRun :=
  if st.queueClosed then none
  else some { st with queueBuffer := st.queueBuffer ++ [r] }

/-- `GlobalStats` snapshot (external `models.NewGlobalStats`): scalar
fields plus two counter maps, all opaque to the collector. -/
structure GlobalStats where
  fields : List (String × Int)
  firmwares : List (String × Nat)
  models : List (String × Nat)
deriving DecidableEq

/-- One write issued to the sink by the global-stats path. -/
inductive SinkWrite where
  | addPoint (measurement : String) (tags : Option (List (String × String)))
      (fields : List (String × Int)) (timestamp : Int)
  | addCounterMap (measurement : String) (counts : List (String × Nat))
deriving DecidableEq

/-- Measurement name constant of the external `database` package. -/
def MeasurementGlobal : String := "global"

/-- Measurement name constant of the external `database` package. -/
def MeasurementFirmware : String := "firmware"

/-- Measurement name constant of the external `database` package. -/
def MeasurementModel : String := "model"

/-- `saveGlobalStats` (collector.go lines 197-203): three unguarded
calls on `coll.db` — `AddPoint(MeasurementGlobal, nil, stats.Fields(),
time.Now())`, `AddCounterMap(MeasurementFirmware, stats.Firmwares)`,
`AddCounterMap(MeasurementModel, stats.Models)`.  The missing nil check
is modelled by returning the nil-dereference fault when `db = none`. -/
def saveGlobalStats (db : Option Unit) (now : Int) (stats : GlobalStats) :
    Except String (List SinkWrite) :=
  match db with
  | none => Except.error "runtime error: invalid memory address or nil pointer dereference"
  | some _ =>
      Except.ok
        [SinkWrite.addPoint MeasurementGlobal none stats.fields now,
         SinkWrite.addCounterMap MeasurementFirmware stats.firmwares,
         SinkWrite.addCounterMap MeasurementModel stats.models]

/-- Go `time.Minute` in nanoseconds (`time.Duration`). -/
def timeMinute : Int := 60 * 1000000000

/-- The ticker period of `globalStatsWorker` (collector.go line 184):
`time.NewTicker(time.Minute)` — fixed, never configurable. -/
def globalStatsTickerInterval : Int := timeMinute

/-- `globalStatsWorker` (collector.go lines 183-194): each ticker tick
runs `saveGlobalStats` on a fresh registry snapshot, until the stop
channel closes.  `snapshot n` and `clock n` are the registry contents
and `time.Now()` at the n-th tick. -/
def globalStatsWorker (db : Option Unit) (snapshot : Nat → GlobalStats)
    (clock : Nat → Int) (n : Nat) :
    List TickEvent → List (Except String (List SinkWrite))
  | [] => []
  | TickEvent.stop :: _ => []
  | TickEvent.tick :: rest =>
      saveGlobalStats db (clock n) (snapshot n) ::
        globalStatsWorker db snapshot clock (n + 1) rest

/-! ## Helper lemmas -/

/-- An invalid (non-12-byte) NodeID makes `saveResponse` log and return. -/
theorem saveResponse_invalid (db : Option Unit)
    (update : String → ResponseData → Node) (addr : UDPAddr)
    (res : ResponseData) (h : (extractNodeID res).utf8ByteSize ≠ 12) :
    saveResponse db update addr res =
      [Effect.logInvalidNodeID (extractNodeID res) addr] := by
  simp [saveResponse, h]

/-- A valid NodeID makes `saveResponse` update the registry and
conditionally forward to the sink. -/
theorem saveResponse_valid (db : Option Unit)
    (update : String → ResponseData → Node) (addr : UDPAddr)
    (res : ResponseData) (h : (extractNodeID res).utf8ByteSize = 12) :
    saveResponse db update addr res =
      Effect.registryUpdate (extractNodeID res) res ::
        (if db.isSome && (update (extractNodeID res) res).statistics.isSome then
          [Effect.sinkAdd (extractNodeID res) (update (extractNodeID res) res)]
        else []) := by
  simp [saveResponse, h]

/-- The parser handles a concatenation of queue segments segment by
segment. -/
theorem parserRun_append (decode : List Nat → Except String ResponseData)
    (db : Option Unit) (update : String → ResponseData → Node)
    (q1 q2 : List Response) :
    parserRun decode db update (q1 ++ q2) =
      parserRun decode db update q1 ++ parserRun decode db update q2 := by
  induction q1 with
  | nil => simp [parserRun]
  | cons x xs ih => simp [parserRun, ih]

/-- Every queued response has its parser step inside the parser's drain
trace. -/
theorem parserStep_sublist (decode : List Nat → Except String ResponseData)
    (db : Option Unit) (update : String → ResponseData → Node)
    {r : Response} {l : List Response} (h : r ∈ l) :
    (parserStep decode db update r).Sublist (parserRun decode db update l) := by
  induction l with
  | nil => cases h
  | cons x xs ih =>
    cases h with
    | head =>
        show (parserStep decode db update r).Sublist
          (parserStep decode db update r ++ parserRun decode db update xs)
        exact List.sublist_append_left _ _
    | tail _ hmem =>
        exact (ih hmem).trans (List.sublist_append_right _ _)

/-- Characterisation of a successful `NewCollector` run: the collector
fields it builds and the goroutines it spawns. -/
theorem NewCollector_created (resolve : String → Except String UDPAddr)
    (listen : UDPAddr → Except String Unit) (db : Option Unit)
    (multiCastGroup port iface : String) (coll : Collector)
    (tasks : List SpawnedTask)
    (h : NewCollector resolve listen db multiCastGroup port iface =
      NewCollectorResult.created coll tasks) :
    coll = { db := db
             multicastAddr := joinHostPort (multiCastGroup ++ "%" ++ iface) port
             queueCapacity := 400
             interval := 0 } ∧
    tasks = [SpawnedTask.receiverTask, SpawnedTask.parserTask] ++
      (if db.isSome then [SpawnedTask.globalStatsTask] else []) := by
  unfold NewCollector at h
  split at h
  · cases h
  · split at h
    · cases h
    · cases h
      exact ⟨rfl, rfl⟩

/-! ## Claims -/

/-- C1: for every decoded payload the candidate NodeID comes from the
first present section in the fixed order nodeInfo, neighbours,
statistics; with no section present no ID is extracted (the Go zero
value `""` remains); in particular when both nodeinfo and statistics are
present with different identifiers, the nodeinfo one is used and the
statistics one never is. -/
theorem C1_extraction_priority (res : ResponseData) :
    (∀ s, res.nodeInfo = some s → extractNodeID res = s.nodeID) ∧
    (res.nodeInfo = none → ∀ s, res.neighbours = some s →
      extractNodeID res = s.nodeID) ∧
    (res.nodeInfo = none → res.neighbours = none → ∀ s,
      res.statistics = some s → extractNodeID res = s.nodeID) ∧
    (res.nodeInfo = none → res.neighbours = none → res.statistics = none →
      extractNodeID res = "") ∧
    (∀ a b, res.nodeInfo = some a → res.statistics = some b →
      a.nodeID ≠ b.nodeID →
      extractNodeID res = a.nodeID ∧ extractNodeID res ≠ b.nodeID) := by
  obtain ⟨ni, ne, st⟩ := res
  cases ni <;> cases ne <;> cases st <;>
    simp_all [extractNodeID]

/-- A payload carrying both a nodeinfo section and a statistics section
with different identifiers, for exercising the extraction priority. -/
def resBoth : ResponseData :=
  { nodeInfo := some { nodeID := "aabbccddeeff" }
    neighbours := none
    statistics := some { nodeID := "000000000000" } }

/-- C1 witness: on `resBoth` the nodeinfo identifier wins and the
statistics identifier is not used. -/
theorem C1_extraction_priority_witness :
    extractNodeID resBoth = "aabbccddeeff" ∧
    extractNodeID resBoth ≠ "000000000000" :=
  (C1_extraction_priority resBoth).2.2.2.2
    { nodeID := "aabbccddeeff" } { nodeID := "000000000000" }
    rfl rfl (by decide)

/-- C2: per-message errors are fully absorbed — a decode failure is
logged with source address and raw bytes and yields no registry/sink
call; an extracted identifier that is not exactly 12 bytes (including
the empty one when no section is present) is logged with the raw ID and
source address and yields no registry/sink call; and the parser keeps
processing subsequent messages. -/
theorem C2_per_message_errors_absorbed
    (decode : List Nat → Except String ResponseData) (db : Option Unit)
    (update : String → ResponseData → Node) (addr : UDPAddr)
    (obj : Response) (e : String) (d : ResponseData)
    (q1 q2 : List Response) :
    (decode obj.raw = Except.error e →
      parserStep decode db update obj =
        [Effect.logDecodeError obj.address obj.raw e] ∧
      updateCount (parserStep decode db update obj) = 0 ∧
      sinkAddCount (parserStep decode db update obj) = 0) ∧
    ((extractNodeID d).utf8ByteSize ≠ 12 →
      saveResponse db update addr d =
        [Effect.logInvalidNodeID (extractNodeID d) addr] ∧
      updateCount (saveResponse db update addr d) = 0 ∧
      sinkAddCount (saveResponse db update addr d) = 0) ∧
    (decode obj.raw = Except.ok d → (extractNodeID d).utf8ByteSize ≠ 12 →
      updateCount (parserStep decode db update obj) = 0 ∧
      sinkAddCount (parserStep decode db update obj) = 0) ∧
    parserRun decode db update (q1 ++ q2) =
      parserRun decode db update q1 ++ parserRun decode db update q2 := by
  refine ⟨?_, ?_, ?_, parserRun_append decode db update q1 q2⟩
  · intro h
    have htr : parserStep decode db update obj =
        [Effect.logDecodeError obj.address obj.raw e] := by
      simp [parserStep, h]
    exact ⟨htr, by rw [htr]; rfl, by rw [htr]; rfl⟩
  · intro h
    have htr := saveResponse_invalid db update addr d h
    exact ⟨htr, by rw [htr]; rfl, by rw [htr]; rfl⟩
  · intro hok hlen
    have htr : parserStep decode db update obj =
        [Effect.logInvalidNodeID (extractNodeID d) obj.address] := by
      simp [parserStep, hok, saveResponse_invalid db update obj.address d hlen]
    exact ⟨by rw [htr]; rfl, by rw [htr]; rfl⟩

/-- A decoder that always fails, standing for an undecodable datagram. -/
def decodeFail : List Nat → Except String ResponseData :=
  fun _ => Except.error "unexpected EOF"

/-- A registry whose merged node never carries statistics. -/
def updateNoStats : String → ResponseData → Node :=
  fun _ _ => { statistics := none }

/-- The sample source address used in the concrete witnesses. -/
def addrSample : UDPAddr := { host := "203.0.113.5", port := 1234 }

/-- A payload whose only section carries the 5-byte identifier
`"short"`. -/
def resShort : ResponseData :=
  { nodeInfo := none
    neighbours := some { nodeID := "short" }
    statistics := none }

/-- C2 witness: an undecodable datagram is only logged, and a payload
with the invalid identifier `"short"` is only logged. -/
theorem C2_per_message_errors_absorbed_witness :
    parserStep decodeFail none updateNoStats
        { address := addrSample, raw := [0, 1] } =
      [Effect.logDecodeError addrSample [0, 1] "unexpected EOF"] ∧
    saveResponse none updateNoStats addrSample resShort =
      [Effect.logInvalidNodeID "short" addrSample] :=
  ⟨((C2_per_message_errors_absorbed decodeFail none updateNoStats addrSample
      { address := addrSample, raw := [0, 1] } "unexpected EOF" resShort
      [] []).1 rfl).1,
   ((C2_per_message_errors_absorbed decodeFail none updateNoStats addrSample
      { address := addrSample, raw := [0, 1] } "unexpected EOF" resShort
      [] []).2.1 (by decide)).1⟩

/-- C3: on a payload whose extracted NodeID is exactly 12 bytes,
`saveResponse` calls `nodes.Update(nodeID, res)` exactly once and calls
`db.Add(nodeID, node)` exactly when the database is configured and the
merged node's statistics are non-nil. -/
theorem C3_valid_id_dispatch (db : Option Unit)
    (update : String → ResponseData → Node) (addr : UDPAddr)
    (res : ResponseData) (h : (extractNodeID res).utf8ByteSize = 12) :
    saveResponse db update addr res =
      Effect.registryUpdate (extractNodeID res) res ::
        (if db.isSome && (update (extractNodeID res) res).statistics.isSome then
          [Effect.sinkAdd (extractNodeID res) (update (extractNodeID res) res)]
        else []) ∧
    updateCount (saveResponse db update addr res) = 1 ∧
    (sinkAddCount (saveResponse db update addr res) = 1 ↔
      db.isSome = true ∧
        (update (extractNodeID res) res).statistics.isSome = true) := by
  have htr := saveResponse_valid db update addr res h
  refine ⟨htr, ?_, ?_⟩ <;> rw [htr] <;>
    cases hc : db.isSome && (update (extractNodeID res) res).statistics.isSome <;>
    simp_all [updateCount, sinkAddCount, List.filter]

/-- A registry whose merged node always carries statistics. -/
def updateWithStats : String → ResponseData → Node :=
  fun _ _ => { statistics := some () }

/-- A payload whose nodeinfo section carries the valid identifier
`"aabbccddeeff"`. -/
def resValid : ResponseData :=
  { nodeInfo := some { nodeID := "aabbccddeeff" }
    neighbours := none
    statistics := none }

/-- C3 witness: with a configured database and statistics present after
the merge, the valid payload produces one registry update and one sink
add. -/
theorem C3_valid_id_dispatch_witness :
    updateCount (saveResponse (some ()) updateWithStats addrSample resValid) = 1 ∧
    sinkAddCount (saveResponse (some ()) updateWithStats addrSample resValid) = 1 :=
  ⟨(C3_valid_id_dispatch (some ()) updateWithStats addrSample resValid
      (by decide)).2.1,
   (C3_valid_id_dispatch (some ()) updateWithStats addrSample resValid
      (by decide)).2.2.mpr ⟨rfl, rfl⟩⟩

/-- C4: `Start` fails fast — with a non-positive interval it panics
before spawning the send goroutine (hence before any send), and a second
`Start` on an already-started collector panics without spawning a
duplicate periodic-send loop. -/
theorem C4_start_fail_fast (coll coll2 : Collector) (i j : Int) :
    (i ≤ 0 → startSpawnCount (Start coll i) = 0 ∧
      ∃ msg, Start coll i = StartResult.panicked msg) ∧
    (Start coll i = StartResult.started coll2 →
      Start coll2 j = StartResult.panicked "already started" ∧
      startSpawnCount (Start coll2 j) = 0) := by
  constructor
  · intro hle
    unfold Start
    split_ifs with h1
    · exact ⟨rfl, "already started", rfl⟩
    · exact ⟨rfl, "invalid collector interval", rfl⟩
  · intro hst
    unfold Start at hst
    by_cases h1 : coll.interval ≠ 0
    · rw [if_pos h1] at hst
      cases hst
    · rw [if_neg h1] at hst
      by_cases h2 : i ≤ 0
      · rw [if_pos h2] at hst
        cases hst
      · rw [if_neg h2] at hst
        cases hst
        have hpos : i ≠ 0 := by omega
        constructor <;> simp [Start, startSpawnCount, hpos]

/-- A fresh collector as built by a successful `NewCollector` with no
database. -/
def collFresh : Collector :=
  { db := none, multicastAddr := "[ff02::2:1001%eth0]:1001",
    queueCapacity := 400, interval := 0 }

/-- C4 witness: `Start` with interval 0 spawns nothing, and a second
`Start` after `Start 5` panics. -/
theorem C4_start_fail_fast_witness :
    startSpawnCount (Start collFresh 0) = 0 ∧
    Start { collFresh with interval := 5 } 7 =
      StartResult.panicked "already started" :=
  ⟨((C4_start_fail_fast collFresh { collFresh with interval := 5 } 0 7).1
      (by decide)).1,
   ((C4_start_fail_fast collFresh { collFresh with interval := 5 } 5 7).2
      (by decide)).1⟩

/-- The resolver used in the C5 counterexample: it resolves the local
listen address and nothing else — in particular not the multicast
address. -/
def resolveListenOnly : String → Except String UDPAddr :=
  fun s => if s = "[::]:0" then Except.ok { host := "::", port := 0 }
           else Except.error "resolve failed"

/-- C5 counterexample: with a resolver that cannot resolve the multicast
address, `NewCollector` still succeeds — construction never resolves the
multicast address, so its failure is not fatal at construction time —
and the failure instead panics later, inside `SendPacket`. -/
theorem C5_counterexample :
    NewCollector resolveListenOnly (fun _ => Except.ok ()) none
        "ff02::2:1001" "1001" "eth0" =
      NewCollectorResult.created collFresh
        [SpawnedTask.receiverTask, SpawnedTask.parserTask] ∧
    SendPacket resolveListenOnly (fun _ _ => Except.ok ())
        "[ff02::2:1001%eth0]:1001" =
      SendResult.panicked "resolve failed" := by
  constructor <;> rfl

/-- C5 (amended): failure to resolve the target address — including the
configured multicast address — is fatal at send time: `SendPacket`
panics before attempting any write; a transient write failure is logged
and non-fatal, and the periodic sender loop continues to the next tick
regardless of each send's outcome. -/
theorem C5_send_failure_handling
    (resolve : String → Except String UDPAddr)
    (write : UDPAddr → String → Except String Unit)
    (address : String) (addr : UDPAddr) (e : String)
    (send : Nat → SendResult) (n : Nat) (evs : List TickEvent) :
    (resolve address = Except.error e →
      SendPacket resolve write address = SendResult.panicked e ∧
      sendWriteCount (SendPacket resolve write address) = 0) ∧
    (resolve address = Except.ok addr →
      write addr requestPayload = Except.error e →
      SendPacket resolve write address =
        SendResult.completed
          [SendEffect.writeToUDP addr requestPayload,
           SendEffect.logWriteFailed e]) ∧
    sender send n (TickEvent.tick :: evs) = send n :: sender send (n + 1) evs := by
  refine ⟨?_, ?_, rfl⟩
  · intro h
    have htr : SendPacket resolve write address = SendResult.panicked e := by
      simp [SendPacket, h]
    exact ⟨htr, by rw [htr]; rfl⟩
  · intro hres hw
    simp [SendPacket, hres, hw]

/-- A network layer whose writes always fail, for the C5 witness. -/
def writeAlwaysFails : UDPAddr → String → Except String Unit :=
  fun _ _ => Except.error "sendto: network is unreachable"

/-- C5 witness: an unresolvable address panics with no write attempted,
while a failing write on a resolvable address merely logs. -/
theorem C5_send_failure_handling_witness :
    sendWriteCount (SendPacket resolveListenOnly writeAlwaysFails "bad") = 0 ∧
    SendPacket resolveListenOnly writeAlwaysFails "[::]:0" =
      SendResult.completed
        [SendEffect.writeToUDP { host := "::", port := 0 } requestPayload,
         SendEffect.logWriteFailed "sendto: network is unreachable"] :=
  ⟨((C5_send_failure_handling resolveListenOnly writeAlwaysFails "bad"
      { host := "::", port := 0 } "resolve failed" (fun _ => SendResult.completed [])
      0 []).1 rfl).2,
   (C5_send_failure_handling resolveListenOnly writeAlwaysFails "[::]:0"
      { host := "::", port := 0 } "sendto: network is unreachable"
      (fun _ => SendResult.completed []) 0 []).2.1 rfl rfl⟩

/-- C6 counterexample: a send whose target address fails to resolve
panics and emits zero datagrams, so it is not the case that every call
to send emits exactly one datagram. -/
theorem C6_counterexample :
    SendPacket (fun _ => Except.error "no such host") (fun _ _ => Except.ok ())
        "invalid-address" = SendResult.panicked "no such host" ∧
    sendWriteCount
      (SendPacket (fun _ => Except.error "no such host") (fun _ _ => Except.ok ())
        "invalid-address") = 0 :=
  ⟨rfl, rfl⟩

/-- C6 (amended): every call to send whose target address resolves
attempts exactly one UDP write, whose payload is the fixed literal ASCII
string, regardless of the address and of the write outcome; a call whose
address fails to resolve panics without attempting a write; and every
write any send ever attempts carries that same literal, so the payload
never changes between ticks or addresses. -/
theorem C6_fixed_payload (resolve : String → Except String UDPAddr)
    (write : UDPAddr → String → Except String Unit)
    (address : String) (addr : UDPAddr) :
    (resolve address = Except.ok addr →
      sendWriteCount (SendPacket resolve write address) = 1 ∧
      sendPayloads (SendPacket resolve write address) = [requestPayload]) ∧
    (∀ p ∈ sendPayloads (SendPacket resolve write address),
      p = requestPayload) ∧
    requestPayload = "GET nodeinfo statistics neighbours" := by
  refine ⟨?_, ?_, rfl⟩
  · intro h
    cases hw : write addr requestPayload <;>
      simp [SendPacket, h, hw, sendWriteCount, sendPayloads, List.filter]
  · intro p hp
    cases hres : resolve address with
    | error e => simp [SendPacket, hres, sendPayloads] at hp
    | ok a =>
      cases hw : write a requestPayload <;>
        simp [SendPacket, hres, hw, sendPayloads] at hp <;> exact hp

/-- C6 witness: on a resolvable address exactly one write is attempted
and its payload is the literal request string. -/
theorem C6_fixed_payload_witness :
    sendWriteCount (SendPacket resolveListenOnly (fun _ _ => Except.ok ()) "[::]:0") = 1 ∧
    sendPayloads (SendPacket resolveListenOnly (fun _ _ => Except.ok ()) "[::]:0") =
      ["GET nodeinfo statistics neighbours"] :=
  ⟨((C6_fixed_payload resolveListenOnly (fun _ _ => Except.ok ()) "[::]:0"
      { host := "::", port := 0 }).1 rfl).1,
   ((C6_fixed_payload resolveListenOnly (fun _ _ => Except.ok ()) "[::]:0"
      { host := "::", port := 0 }).1 rfl).2⟩

/-- C7: the global-stats worker is spawned iff a database sink is
configured; each one-minute tick runs `saveGlobalStats` once, which
issues exactly three sink writes — one timestamped fields point and two
counter-map writes — unconditionally, for every snapshot including one
with empty counter maps; and the ticker period is the fixed
`time.Minute`. -/
theorem C7_global_stats_aggregator
    (resolve : String → Except String UDPAddr)
    (listen : UDPAddr → Except String Unit) (db : Option Unit)
    (multiCastGroup port iface : String) (coll : Collector)
    (tasks : List SpawnedTask) (now : Int) (stats : GlobalStats)
    (snapshot : Nat → GlobalStats) (clock : Nat → Int) (n : Nat)
    (evs : List TickEvent) :
    (NewCollector resolve listen db multiCastGroup port iface =
        NewCollectorResult.created coll tasks →
      (SpawnedTask.globalStatsTask ∈ tasks ↔ db.isSome = true)) ∧
    saveGlobalStats (some ()) now stats =
      Except.ok
        [SinkWrite.addPoint MeasurementGlobal none stats.fields now,
         SinkWrite.addCounterMap MeasurementFirmware stats.firmwares,
         SinkWrite.addCounterMap MeasurementModel stats.models] ∧
    (∀ ws, saveGlobalStats (some ()) now stats = Except.ok ws →
      ws.length = 3) ∧
    globalStatsWorker db snapshot clock n (TickEvent.tick :: evs) =
      saveGlobalStats db (clock n) (snapshot n) ::
        globalStatsWorker db snapshot clock (n + 1) evs ∧
    globalStatsTickerInterval = timeMinute := by
  refine ⟨?_, rfl, ?_, rfl, rfl⟩
  · intro h
    obtain ⟨-, htasks⟩ := NewCollector_created resolve listen db
      multiCastGroup port iface coll tasks h
    subst htasks
    cases hdb : db.isSome <;> simp [hdb]
  · intro ws hws
    cases hws
    rfl

/-- A successfully constructed collector with a configured database. -/
def collWithDB : Collector :=
  { db := some (), multicastAddr := "[ff02::2:1001%eth0]:1001",
    queueCapacity := 400, interval := 0 }

/-- An empty global-stats snapshot: no fields, no firmware counts, no
model counts. -/
def statsEmpty : GlobalStats := { fields := [], firmwares := [], models := [] }

/-- C7 witness: with a database the worker is among the spawned tasks,
and even the empty snapshot produces exactly the three writes. -/
theorem C7_global_stats_aggregator_witness :
    SpawnedTask.globalStatsTask ∈
      [SpawnedTask.receiverTask, SpawnedTask.parserTask,
        SpawnedTask.globalStatsTask] ∧
    saveGlobalStats (some ()) 0 statsEmpty =
      Except.ok
        [SinkWrite.addPoint MeasurementGlobal none [] 0,
         SinkWrite.addCounterMap MeasurementFirmware [],
         SinkWrite.addCounterMap MeasurementModel []] :=
  ⟨((C7_global_stats_aggregator resolveListenOnly (fun _ => Except.ok ())
      (some ()) "ff02::2:1001" "1001" "eth0" collWithDB
      [SpawnedTask.receiverTask, SpawnedTask.parserTask,
        SpawnedTask.globalStatsTask] 0 statsEmpty
      (fun _ => statsEmpty) (fun _ => 0) 0 []).1 rfl).mpr rfl,
   (C7_global_stats_aggregator resolveListenOnly (fun _ => Except.ok ())
      (some ()) "ff02::2:1001" "1001" "eth0" collWithDB
      [SpawnedTask.receiverTask, SpawnedTask.parserTask,
        SpawnedTask.globalStatsTask] 0 statsEmpty
      (fun _ => statsEmpty) (fun _ => 0) 0 []).2.1⟩

/-- A queued datagram that does not decode. -/
def entryBad : Response := { address := addrSample, raw := [0] }

/-- The runtime state of a collector holding one undecodable buffered
entry at the moment `Close` is called. -/
def runBad : CollectorRun :=
  { stopClosed := false, socketClosed := false, queueClosed := false,
    queueBuffer := [entryBad] }

/-- C8 counterexample: an entry queued before `Close` whose decode fails
is logged and dropped by the parser, so it is never delivered to the
node-registry updater, refuting that every pre-Close entry is. -/
theorem C8_counterexample :
    entryBad ∈ runBad.queueBuffer ∧
    parserRun decodeFail none updateNoStats (Close runBad).1.queueBuffer =
      [Effect.logDecodeError addrSample [0] "unexpected EOF"] ∧
    updateCount
      (parserRun decodeFail none updateNoStats
        (Close runBad).1.queueBuffer) = 0 :=
  ⟨List.mem_singleton.mpr rfl, rfl, rfl⟩

/-- C8 (amended): `Close` performs close-stop, close-socket, close-queue
in that fixed order; afterwards the queue accepts no new entries; every
entry already queued before `Close` is still drained and processed by
the parser before it ends, and is delivered to the node-registry updater
(`saveResponse`) exactly when its decode succeeds. -/
theorem C8_shutdown_order (st : CollectorRun) (r : Response)
    (decode : List Nat → Except String ResponseData) (db : Option Unit)
    (update : String → ResponseData → Node) (d : ResponseData) :
    (Close st).2 =
      [CloseAction.closeStop, CloseAction.closeSocket, CloseAction.closeQueue] ∧
    (Close st).1.stopClosed = true ∧
    (Close st).1.socketClosed = true ∧
    (Close st).1.queueClosed = true ∧
    queuePush (Close st).1 r = none ∧
    (Close st).1.queueBuffer = st.queueBuffer ∧
    (r ∈ st.queueBuffer →
      (parserStep decode db update r).Sublist
        (parserRun decode db update (Close st).1.queueBuffer)) ∧
    (decode r.raw = Except.ok d →
      parserStep decode db update r = saveResponse db update r.address d) := by
  refine ⟨rfl, rfl, rfl, rfl, rfl, rfl, ?_, ?_⟩
  · intro h
    exact parserStep_sublist decode db update h
  · intro h
    simp [parserStep, h]

/-- A decoder that yields the valid sample payload, standing for a
well-formed compressed datagram. -/
def decodeValid : List Nat → Except String ResponseData :=
  fun _ => Except.ok resValid

/-- A sample queued datagram. -/
def entrySample : Response := { address := addrSample, raw := [120, 156] }

/-- The runtime state of a collector holding one buffered entry. -/
def runGood : CollectorRun :=
  { stopClosed := false, socketClosed := false, queueClosed := false,
    queueBuffer := [entrySample] }

/-- C8 witness: after `Close` the push of a new entry fails and the one
buffered entry is still processed by the parser's drain. -/
theorem C8_shutdown_order_witness :
    queuePush (Close runGood).1 entrySample = none ∧
    (parserStep decodeValid (some ()) updateWithStats entrySample).Sublist
      (parserRun decodeValid (some ()) updateWithStats
        (Close runGood).1.queueBuffer) :=
  ⟨(C8_shutdown_order runGood entrySample decodeValid (some ())
      updateWithStats resValid).2.2.2.2.1,
   (C8_shutdown_order runGood entrySample decodeValid (some ())
      updateWithStats resValid).2.2.2.2.2.2.1 (by decide)⟩

/-- C9: the unguarded database dereferences in `saveGlobalStats` are
safe — whenever the global-stats worker was spawned by `NewCollector`,
the collector's database field is non-nil, so `saveGlobalStats` on it
never faults and issues its three writes. -/
theorem C9_global_stats_sink_nonnil
    (resolve : String → Except String UDPAddr)
    (listen : UDPAddr → Except String Unit) (db : Option Unit)
    (multiCastGroup port iface : String) (coll : Collector)
    (tasks : List SpawnedTask) (now : Int) (stats : GlobalStats)
    (h : NewCollector resolve listen db multiCastGroup port iface =
      NewCollectorResult.created coll tasks)
    (hw : SpawnedTask.globalStatsTask ∈ tasks) :
    coll.db.isSome = true ∧
    ∃ ws, saveGlobalStats coll.db now stats = Except.ok ws ∧ ws.length = 3 := by
  obtain ⟨hcoll, htasks⟩ := NewCollector_created resolve listen db
    multiCastGroup port iface coll tasks h
  subst hcoll
  subst htasks
  cases db with
  | none => simp at hw
  | some u2 => exact ⟨rfl, _, rfl, rfl⟩

/-- C9 witness: on the concrete successful construction with a database,
`saveGlobalStats` on the collector's database field succeeds. -/
theorem C9_global_stats_sink_nonnil_witness :
    collWithDB.db.isSome = true ∧
    ∃ ws, saveGlobalStats collWithDB.db 0 statsEmpty = Except.ok ws ∧
      ws.length = 3 :=
  C9_global_stats_sink_nonnil resolveListenOnly (fun _ => Except.ok ())
    (some ()) "ff02::2:1001" "1001" "eth0" collWithDB
    [SpawnedTask.receiverTask, SpawnedTask.parserTask,
      SpawnedTask.globalStatsTask] 0 statsEmpty rfl (by decide)

/-- C10: the response queue is created with the fixed capacity 400 and
no later operation changes it — `Start` leaves it untouched. -/
theorem C10_queue_capacity
    (resolve : String → Except String UDPAddr)
    (listen : UDPAddr → Except String Unit) (db : Option Unit)
    (multiCastGroup port iface : String) (coll coll2 : Collector)
    (tasks : List SpawnedTask) (i : Int)
    (h : NewCollector resolve listen db multiCastGroup port iface =
      NewCollectorResult.created coll tasks) :
    coll.queueCapacity = 400 ∧
    (Start coll i = StartResult.started coll2 →
      coll2.queueCapacity = 400) := by
  obtain ⟨hcoll, -⟩ := NewCollector_created resolve listen db
    multiCastGroup port iface coll tasks h
  subst hcoll
  refine ⟨rfl, ?_⟩
  intro hst
  unfold Start at hst
  split_ifs at hst <;> cases hst <;> rfl

/-- C10 witness: the concrete construction yields capacity 400, and it
is still 400 after `Start`. -/
theorem C10_queue_capacity_witness :
    collFresh.queueCapacity = 400 ∧
    ({ collFresh with interval := 5 } : Collector).queueCapacity = 400 :=
  ⟨(C10_queue_capacity resolveListenOnly (fun _ => Except.ok ()) none
      "ff02::2:1001" "1001" "eth0" collFresh { collFresh with interval := 5 }
      [SpawnedTask.receiverTask, SpawnedTask.parserTask] 5 rfl).1,
   (C10_queue_capacity resolveListenOnly (fun _ => Except.ok ()) none
      "ff02::2:1001" "1001" "eth0" collFresh { collFresh with interval := 5 }
      [SpawnedTask.receiverTask, SpawnedTask.parserTask] 5 rfl).2 (by decide)⟩

end Respond
